import Mathlib

/-!
Shallow embedding of the emotionsinapod backend (an Express + S3 video
uploader) and proofs about its upload, listing and diagnostics paths.

The repository ships two variants of the same gateway logic:
  * the split variant: src/services/s3FileService.js together with
    src/controllers/uploadController.js and src/controllers/fileController.js;
  * the monolithic variant: a single server file (src/unnamed/part_002)
    containing the same handlers inline.
Both are embedded below; definitions whose names end in Mono come from the
monolithic server file, the others from the split service/controller files.

Conventions of the embedding:
  * JavaScript objects sent as JSON bodies are association lists of
    field-name/value pairs (JVal below); a key that is present with the
    value undefined is still a present key, which matters for the
    diagnostics step records.
  * Exceptions thrown by the AWS SDK calls are modelled with Except; the
    outcome of each remote call is passed in as a parameter, so a handler
    is a total function from the call outcomes to its HTTP response.
  * Array.prototype.sort with the comparator
    (a, b) => new Date(b.LastModified) - new Date(a.LastModified)
    is a stable sort placing larger LastModified first; it is modelled by
    the stable insertion sort sortByLmDesc below.
  * The regex replace original.replace(/\s+/g, underscore) is modelled by
    sanitizeChars, which rewrites each maximal whitespace run to one
    underscore; isWs covers the ASCII part of the JS \s class (the claims
    only involve ASCII filenames).
-/

namespace Pod

/-- JSON-like values for response bodies. undefined models a JavaScript object
field whose value is undefined: the key is present, the value is not. -/
inductive JVal where
  | str (s : String)
  | num (n : Int)
  | bool (b : Bool)
  | null
  | undefined
  | arr (xs : List JVal)
  | obj (fields : List (String × JVal))

/-- A response body: an ordered list of named fields. -/
abbrev JBody := List (String × JVal)

/-- Whether a body has a field of the given name. -/
def hasField (b : JBody) (k : String) : Bool :=
  b.any fun p => p.1 == k

/-- Look up the first field of the given name. -/
def getField (b : JBody) (k : String) : Option JVal :=
  (b.find? fun p => p.1 == k).map Prod.snd

/-- The ASCII portion of the JavaScript regex class \s: space, tab, line
feed, vertical tab, form feed, carriage return. -/
def isWs (c : Char) : Bool :=
  c == ' ' || c == '\t' || c == '\n' || c == '\x0b' || c == '\x0c' || c == '\r'

/-- original.replace(/\s+/g, underscore): each maximal run of whitespace
characters becomes a single underscore. On meeting a whitespace character
the run it starts is consumed with dropWhile and one underscore is
emitted. -/
def sanitizeChars : List Char → List Char
  | [] => []
  | c :: rest =>
    if isWs c then '_' :: sanitizeChars (rest.dropWhile isWs)
    else c :: sanitizeChars rest
termination_by l => l.length
decreasing_by
  · simpa using Nat.lt_succ_of_le (List.dropWhile_sublist isWs).length_le
  · simp

/-- String version of sanitizeChars. -/
def sanitize (s : String) : String := ⟨sanitizeChars s.data⟩

/-- Modelled from the spec: sanitize replaces every maximal run of
whitespace characters with a single underscore. This rendering walks the
string once, carrying a flag that records whether the previous character
was whitespace: a whitespace character opening a run emits one underscore,
later characters of the same run emit nothing. Stated separately from
sanitizeChars so the source function can be proved to refine the spec
wording. -/
def collapseWs : Bool → List Char → List Char
  | _, [] => []
  | prevWs, c :: rest =>
    if isWs c then
      if prevWs then collapseWs true rest
      else '_' :: collapseWs true rest
    else c :: collapseWs false rest

/-- String version of collapseWs, starting outside any whitespace run. -/
def sanitizeSpec (s : String) : String := ⟨collapseWs false s.data⟩

/-- JavaScript s || d for strings: the empty string is falsy. -/
def jsOr (s : Option String) (d : String) : String :=
  match s with
  | none => d
  | some v => if v = "" then d else v

/-- s.startsWith(p) on JavaScript strings. -/
def strStartsWith (s p : String) : Bool := p.data.isPrefixOf s.data

/-- Whether p occurs as a contiguous run inside l. -/
def hasInfixRun (p : List Char) : List Char → Bool
  | [] => p.isPrefixOf []
  | c :: rest => p.isPrefixOf (c :: rest) || hasInfixRun p rest

/-- s.includes(p) on JavaScript strings. -/
def strIncludes (s p : String) : Bool := hasInfixRun p.data s.data

/-- The fixed key scope of the bucket, PREFIX in the source: both variants
read and write only below uploads/. -/
def uploadsFolder : String := "uploads/"

/-- The literal the X-Client-Source header must equal. -/
def trustedSource : String := "stickers-recorder"

/-- The file object produced by the multer middleware for field video.
mimetype and originalname are Option because multipart parts may omit
them; buffer is the fully materialized byte content. -/
structure UploadedFile where
  originalname : Option String
  mimetype : Option String
  buffer : List Nat
  size : Nat
deriving DecidableEq

/-- An error thrown by an AWS SDK call: err.name, err.message and the
optional err.$metadata.httpStatusCode. -/
structure JsError where
  name : String
  message : String
  httpStatus : Option Int
deriving DecidableEq

/-- Key construction of the split variant service uploadVideoToS3:
PREFIX + Date.now() + "-" + sanitized, where the original name defaults
to video.mp4 when absent or empty. -/
def uploadKeySvc (now : Nat) (originalname : Option String) : String :=
  uploadsFolder ++ toString now ++ "-" ++ sanitize (jsOr originalname "video.mp4")

/-- Default name of the monolithic variant: video.mp4 when the content
type mentions mp4, else video.webm. -/
def monoDefaultName (ct : String) : String :=
  if strIncludes ct "mp4" then "video.mp4" else "video.webm"

/-- Key construction of the monolithic variant upload route. -/
def uploadKeyMono (now : Nat) (originalname : Option String) (ct : String) : String :=
  uploadsFolder ++ toString now ++ "-" ++ sanitize (jsOr originalname (monoDefaultName ct))

/-- Hexadecimal digit for percent encoding. -/
def hexDigit (n : Nat) : Char :=
  if n < 10 then Char.ofNat (48 + n) else Char.ofNat (55 + n)

/-- Characters encodeURIComponent leaves unescaped. -/
def isUnescapedURIChar (c : Char) : Bool :=
  c.isAlphanum || c == '-' || c == '_' || c == '.' || c == '!' || c == '~' ||
    c == '*' || c == Char.ofNat 39 || c == '(' || c == ')'

/-- encodeURIComponent restricted to single-byte code points (all keys in
this development are ASCII; the multi-byte UTF-8 expansion is elided). -/
def encodeURIComponent (s : String) : String :=
  ⟨(s.data.map fun c =>
      if isUnescapedURIChar c then [c]
      else ['%', hexDigit (c.toNat / 16 % 16), hexDigit (c.toNat % 16)]).flatten⟩

/-- Result object of the split variant service uploadVideoToS3. -/
structure UploadResult where
  key : String
  url : String
  contentType : Option String
  size : Nat
deriving DecidableEq

/-- The split variant service upload: computes the key, streams the buffer
(the remote call itself is outside the model) and returns key, constructed
public URL, content type and size. -/
def uploadVideoToS3 (region bucket : String) (now : Nat) (f : UploadedFile) : UploadResult :=
  let key := uploadKeySvc now f.originalname
  { key := key
    url := "https://" ++ bucket ++ ".s3." ++ region ++ ".amazonaws.com/" ++
      encodeURIComponent key
    contentType := f.mimetype
    size := f.size }

/-- Outcome of one handler invocation: HTTP status, JSON body, and whether
the S3 upload operation was started. -/
structure HandlerOutcome where
  status : Nat
  body : JBody
  s3Invoked : Bool

/-- Option String to JVal: an absent value is undefined. -/
def optStrJ : Option String → JVal
  | some s => .str s
  | none => .undefined

/-- Option Int to JVal: an absent value is undefined. -/
def optIntJ : Option Int → JVal
  | some n => .num n
  | none => .undefined

/-- JavaScript x || null on an optional number: null when the value is
absent or zero. -/
def jsOrNullInt : Option Int → JVal
  | some n => if n = 0 then .null else .num n
  | none => .null

/-- The split variant upload controller uploadVideo. The outcome of
uploader.done() is the uploadOutcome parameter. Reading startsWith on an
absent mimetype throws a TypeError in JavaScript; the thrown error falls
through to the catch block, which answers 500 with error Upload failed,
before any Upload object is built, hence s3Invoked is false there. -/
def uploadVideo (region bucket : String) (now : Nat)
    (uploadOutcome : Except JsError Unit)
    (clientSource : Option String) (file : Option UploadedFile) : HandlerOutcome :=
  if clientSource ≠ some trustedSource then
    { status := 400, body := [("error", .str "Invalid upload source")], s3Invoked := false }
  else
    match file with
    | none =>
      { status := 400, body := [("error", .str "No file uploaded.")], s3Invoked := false }
    | some f =>
      match f.mimetype with
      | none =>
        { status := 500
          body := [("error", .str "Upload failed"),
                   ("details", .str "Cannot read properties of undefined (reading startsWith)")]
          s3Invoked := false }
      | some ct =>
        if strStartsWith ct "video/" then
          match uploadOutcome with
          | .ok _ =>
            let r := uploadVideoToS3 region bucket now f
            { status := 200
              body := [("message", .str "Upload successful"), ("key", .str r.key),
                       ("url", .str r.url), ("contentType", optStrJ r.contentType),
                       ("size", .num r.size), ("source", optStrJ clientSource)]
              s3Invoked := true }
          | .error e =>
            { status := 500
              body := [("error", .str "Upload failed"), ("details", .str e.message)]
              s3Invoked := true }
        else
          { status := 400, body := [("error", .str "File must be a video.")], s3Invoked := false }

/-- The monolithic variant upload route. Differences from the split
variant: the mimetype is defaulted to the empty string before the
startsWith test, the rejection messages differ, and the default original
name depends on the content type. -/
def uploadMono (region bucket : String) (now : Nat)
    (uploadOutcome : Except JsError Unit)
    (clientSource : Option String) (file : Option UploadedFile) : HandlerOutcome :=
  if clientSource ≠ some trustedSource then
    { status := 400, body := [("error", .str "Invalid upload source")], s3Invoked := false }
  else
    match file with
    | none =>
      { status := 400
        body := [("error", .str "No file uploaded (expected field \"video\").")]
        s3Invoked := false }
    | some f =>
      let ct := f.mimetype.getD ""
      if strStartsWith ct "video/" then
        let key := uploadKeyMono now f.originalname ct
        match uploadOutcome with
        | .ok _ =>
          { status := 200
            body := [("message", .str "Upload successful"), ("key", .str key),
                     ("url", .str ("https://" ++ bucket ++ ".s3." ++ region ++
                       ".amazonaws.com/" ++ encodeURIComponent key)),
                     ("contentType", .str ct), ("size", .num f.size),
                     ("source", optStrJ clientSource)]
            s3Invoked := true }
        | .error e =>
          { status := 500
            body := [("error", .str "Upload failed"), ("details", .str e.message)]
            s3Invoked := true }
      else
        { status := 400
          body := [("error", .str ("Invalid content type: " ++ ct))]
          s3Invoked := false }

/-- One entry of an S3 ListObjectsV2 response: Key may be absent, Size is
a byte count, LastModified a millisecond timestamp. -/
structure S3Object where
  key : Option String
  size : Nat
  lastModified : Int
deriving DecidableEq

/-- The filter callback o => o.Key && o.Size > 0 of both listing variants:
an absent or empty Key is falsy and excludes the entry, as does a
non-positive size. -/
def keepsObject (o : S3Object) : Bool :=
  (match o.key with
   | none => false
   | some k => k != "") && decide (0 < o.size)

/-- Modelled from the spec: the claimed filter keeps entries whose key is
present (missing keys removed) and whose size is greater than zero.
Differs from keepsObject on an entry whose key is the empty string. -/
def keepsObjectClaimed (o : S3Object) : Bool :=
  o.key.isSome && decide (0 < o.size)

/-- Comparator order of both listing variants: a may precede b when the
LastModified of b is not later than that of a. -/
def lmDescLe (a b : S3Object) : Bool :=
  decide (b.lastModified ≤ a.lastModified)

/-- Stable insertion placing a before the first entry it may precede. -/
def insertByLm (a : S3Object) : List S3Object → List S3Object
  | [] => [a]
  | b :: l => if lmDescLe a b then a :: b :: l else b :: insertByLm a l

/-- Array.prototype.sort with the descending LastModified comparator,
modelled as a stable insertion sort: most recent first, ties keep the
order the storage service returned. -/
def sortByLmDesc : List S3Object → List S3Object
  | [] => []
  | x :: xs => insertByLm x (sortByLmDesc xs)

/-- A presigned GET URL, recorded as the key it addresses and the
expiresIn argument handed to the signer. -/
structure SignedUrl where
  key : String
  expiresIn : Nat
deriving DecidableEq

/-- One element of the listing response. -/
structure FileEntry where
  key : String
  size : Nat
  lastModified : Int
  url : SignedUrl
deriving DecidableEq

/-- expiresIn passed to getSignedUrl by the split variant service. -/
def svcSignExpiry : Nat := 300

/-- expiresIn passed to getSignedUrl by the monolithic variant. -/
def monoSignExpiry : Nat := 60 * 5

/-- Entry built by the split variant for one retained object. -/
def mkEntrySvc (item : S3Object) : FileEntry :=
  { key := item.key.getD ""
    size := item.size
    lastModified := item.lastModified
    url := { key := item.key.getD "", expiresIn := svcSignExpiry } }

/-- Entry built by the monolithic variant for one retained object. -/
def mkEntryMono (item : S3Object) : FileEntry :=
  { key := item.key.getD ""
    size := item.size
    lastModified := item.lastModified
    url := { key := item.key.getD "", expiresIn := monoSignExpiry } }

/-- MaxKeys of the ListObjectsV2 request issued by both listing variants. -/
def listFilesMaxKeys : Nat := 200

/-- The split variant service listRecentFiles: on an absent Contents field
return the empty list, else filter, sort descending by LastModified, keep
the first limit entries, and sign a URL for each retained entry only. -/
def listRecentFiles (contents : Option (List S3Object)) (limit : Nat) : List FileEntry :=
  match contents with
  | none => []
  | some cs =>
    let realObjects := cs.filter keepsObject
    let recent := (sortByLmDesc realObjects).take limit
    recent.map mkEntrySvc

/-- The retained entries of the monolithic /files route (fixed limit 5),
each carrying its signed URL. -/
def monoRecentEntries (cs : List S3Object) : List FileEntry :=
  ((sortByLmDesc (cs.filter keepsObject)).take 5).map mkEntryMono

/-- Modelled from the spec: the listing pipeline as the claim words it,
with entries removed exactly when the key is missing or the size is not
greater than zero. -/
def listRecentClaimed (contents : Option (List S3Object)) (limit : Nat) : List FileEntry :=
  match contents with
  | none => []
  | some cs =>
    ((sortByLmDesc (cs.filter keepsObjectClaimed)).take limit).map mkEntrySvc

/-- JSON rendering of one listing entry; the presigned URL is rendered as
the record of what was handed to the signer. -/
def entryJ (e : FileEntry) : JVal :=
  .obj [("key", .str e.key), ("size", .num e.size),
        ("lastModified", .num e.lastModified),
        ("url", .obj [("key", .str e.url.key), ("expiresIn", .num e.url.expiresIn)])]

/-- The split variant file controller getFiles: status and JSON body. An
empty listing still answers 200 with count 0; a thrown listing error
answers 500 with error and details only. -/
def getFiles (listOutcome : Except JsError (Option (List S3Object))) : Nat × JBody :=
  match listOutcome with
  | .error err =>
    (500, [("error", .str "Failed to list files"), ("details", .str err.message)])
  | .ok contents =>
    let files := listRecentFiles contents 5
    (200, [("count", .num files.length), ("files", .arr (files.map entryJ))])

/-- The monolithic /files route: an absent or empty Contents answers 200
with message and bucket; a non-empty listing answers 200 with count,
bucket, the key scope and files; a thrown error answers 500 with error,
code, details, bucket and the key scope. -/
def filesHandlerMono (bucket : String)
    (listOutcome : Except JsError (Option (List S3Object))) : Nat × JBody :=
  match listOutcome with
  | .error err =>
    (500, [("error", .str "Failed to list files"), ("code", .str err.name),
           ("details", .str err.message), ("bucket", .str bucket),
           ("prefix", .str uploadsFolder)])
  | .ok contents =>
    match contents with
    | none => (200, [("message", .str "No files found in uploads/"), ("bucket", .str bucket)])
    | some cs =>
      if cs.length = 0 then
        (200, [("message", .str "No files found in uploads/"), ("bucket", .str bucket)])
      else
        let files := monoRecentEntries cs
        (200, [("count", .num files.length), ("bucket", .str bucket),
               ("prefix", .str uploadsFolder), ("files", .arr (files.map entryJ))])

/-- Successful HeadBucket response: the optional metadata status code. -/
structure HeadOk where
  httpStatus : Option Int
deriving DecidableEq

/-- Successful ListObjectsV2 response: the optional metadata status code
and the optional Contents array. -/
structure ListOk where
  httpStatus : Option Int
  contents : Option (List S3Object)
deriving DecidableEq

/-- MaxKeys of the bounded listing issued by the diagnostics probe. -/
def debugListMaxKeys : Nat := 5

/-- HeadBucket step record of the split variant service: on success step,
ok and httpStatus; on failure step, ok, code and message, with no
httpStatus key. -/
def headStepSvc : Except JsError HeadOk → JBody
  | .ok h =>
    [("step", .str "HeadBucket"), ("ok", .bool true), ("httpStatus", optIntJ h.httpStatus)]
  | .error e =>
    [("step", .str "HeadBucket"), ("ok", .bool false),
     ("code", .str e.name), ("message", .str e.message)]

/-- ListObjectsV2 step record of the split variant service. -/
def listStepSvc : Except JsError ListOk → JBody
  | .ok l =>
    let cs := l.contents.getD []
    [("step", .str "ListObjectsV2"), ("ok", .bool true),
     ("count", .num cs.length), ("keys", .arr (cs.map fun o => optStrJ o.key))]
  | .error e =>
    [("step", .str "ListObjectsV2"), ("ok", .bool false),
     ("code", .str e.name), ("message", .str e.message)]

/-- HeadBucket step record of the monolithic variant: both branches carry
an httpStatus key, defaulted to null with the JavaScript || null. -/
def headStepMono : Except JsError HeadOk → JBody
  | .ok h =>
    [("step", .str "HeadBucket"), ("ok", .bool true), ("httpStatus", jsOrNullInt h.httpStatus)]
  | .error e =>
    [("step", .str "HeadBucket"), ("ok", .bool false),
     ("code", .str e.name), ("message", .str e.message),
     ("httpStatus", jsOrNullInt e.httpStatus)]

/-- ListObjectsV2 step record of the monolithic variant. -/
def listStepMono : Except JsError ListOk → JBody
  | .ok l =>
    let cs := l.contents.getD []
    [("step", .str "ListObjectsV2"), ("ok", .bool true),
     ("httpStatus", optIntJ l.httpStatus),
     ("count", .num cs.length), ("keys", .arr (cs.map fun o => optStrJ o.key))]
  | .error e =>
    [("step", .str "ListObjectsV2"), ("ok", .bool false),
     ("code", .str e.name), ("message", .str e.message),
     ("httpStatus", jsOrNullInt e.httpStatus)]

/-- The diagnostics report: region, bucket and the ordered step records. -/
structure DiagReport where
  region : Option String
  bucket : Option String
  steps : List JBody

/-- The split variant service debugS3Connectivity: each of the two SDK
calls sits in its own try/catch, so the report always holds the HeadBucket
record followed by the ListObjectsV2 record, whatever either outcome. -/
def debugS3Connectivity (region bucket : Option String)
    (headOutcome : Except JsError HeadOk)
    (listOutcome : Except JsError ListOk) : DiagReport :=
  { region := region
    bucket := bucket
    steps := [headStepSvc headOutcome, listStepSvc listOutcome] }

/-- The monolithic /debug/s3 route, same shape with the mono records. -/
def debugMono (region bucket : Option String)
    (headOutcome : Except JsError HeadOk)
    (listOutcome : Except JsError ListOk) : DiagReport :=
  { region := region
    bucket := bucket
    steps := [headStepMono headOutcome, listStepMono listOutcome] }

/-! Helper lemmas -/

/-- The source sanitizer and the spec wording agree, both from outside a
run and from the position just after a run began. -/
theorem sanitizeChars_eq_collapse (l : List Char) :
    sanitizeChars l = collapseWs false l ∧
      sanitizeChars (l.dropWhile isWs) = collapseWs true l := by
  induction l with
  | nil => simp [sanitizeChars, collapseWs]
  | cons c rest ih =>
    by_cases h : isWs c
    · refine ⟨?_, ?_⟩
      · rw [sanitizeChars, collapseWs]
        simp [h, ih.2]
      · rw [List.dropWhile_cons_of_pos h, collapseWs]
        simp [h, ih.2]
    · refine ⟨?_, ?_⟩
      · rw [sanitizeChars, collapseWs]
        simp [h, ih.1]
      · rw [List.dropWhile_cons_of_neg h, sanitizeChars, collapseWs]
        simp [h, ih.1]

/-- String level agreement of the sanitizer with the spec wording. -/
theorem sanitize_eq_sanitizeSpec (s : String) : sanitize s = sanitizeSpec s :=
  congrArg String.mk (sanitizeChars_eq_collapse s.data).1

/-- Inserting permutes with consing. -/
theorem insertByLm_perm (a : S3Object) (l : List S3Object) :
    List.Perm (insertByLm a l) (a :: l) := by
  induction l with
  | nil => simp [insertByLm]
  | cons b t ih =>
    rw [insertByLm]
    by_cases hab : lmDescLe a b
    · rw [if_pos hab]
    · rw [if_neg hab]
      exact (ih.cons b).trans (List.Perm.swap a b t)

/-- The comparator sort permutes its input. -/
theorem sortByLmDesc_perm (l : List S3Object) :
    List.Perm (sortByLmDesc l) l := by
  induction l with
  | nil => simp [sortByLmDesc]
  | cons x xs ih =>
    rw [sortByLmDesc]
    exact (insertByLm_perm x (sortByLmDesc xs)).trans (ih.cons x)

/-- Insertion preserves the descending LastModified order. -/
theorem pairwise_insertByLm {a : S3Object} {l : List S3Object}
    (h : l.Pairwise fun x y => y.lastModified ≤ x.lastModified) :
    (insertByLm a l).Pairwise fun x y => y.lastModified ≤ x.lastModified := by
  induction h with
  | nil => simp [insertByLm]
  | @cons b t hr hp ih =>
    rw [insertByLm]
    by_cases hab : lmDescLe a b
    · rw [if_pos hab]
      have hba : b.lastModified ≤ a.lastModified := by
        simpa [lmDescLe] using hab
      refine List.Pairwise.cons ?_ (List.Pairwise.cons hr hp)
      intro x hx
      rcases List.mem_cons.mp hx with rfl | hx
      · exact hba
      · exact le_trans (hr x hx) hba
    · rw [if_neg hab]
      have hba : a.lastModified ≤ b.lastModified := by
        have hnot : ¬ b.lastModified ≤ a.lastModified := by
          simpa [lmDescLe] using hab
        exact le_of_lt (lt_of_not_le hnot)
      refine List.Pairwise.cons ?_ ih
      intro x hx
      have hx' : x ∈ a :: t := (insertByLm_perm a t).mem_iff.mp hx
      rcases List.mem_cons.mp hx' with rfl | hx'
      · exact hba
      · exact hr x hx'

/-- The comparator sort is sorted, most recent first. -/
theorem sortByLmDesc_sorted (l : List S3Object) :
    (sortByLmDesc l).Pairwise fun x y => y.lastModified ≤ x.lastModified := by
  induction l with
  | nil => simp [sortByLmDesc]
  | cons x xs ih =>
    rw [sortByLmDesc]
    exact pairwise_insertByLm ih

/-! Claim theorems -/

/-- Claim C1: for every upload at millisecond time T of a file whose
original name N is non-empty, the computed storage key (in the split
service, in the monolithic route, and as returned by uploadVideoToS3)
equals uploads/ followed by T, a dash, and the name with every maximal
whitespace run collapsed to one underscore; in particular the name
my clip.mp4 becomes my_clip.mp4. -/
theorem upload_key_construction (T : Nat) (N : String) (hN : N ≠ "")
    (ct region bucket : String) (mt : Option String) (buf : List Nat) (sz : Nat) :
    uploadKeySvc T (some N) = "uploads/" ++ toString T ++ "-" ++ sanitizeSpec N ∧
    uploadKeyMono T (some N) ct = "uploads/" ++ toString T ++ "-" ++ sanitizeSpec N ∧
    (uploadVideoToS3 region bucket T ⟨some N, mt, buf, sz⟩).key =
      "uploads/" ++ toString T ++ "-" ++ sanitizeSpec N ∧
    sanitizeSpec "my clip.mp4" = "my_clip.mp4" := by
  have hjs : ∀ d, jsOr (some N) d = N := by intro d; simp [jsOr, hN]
  refine ⟨?_, ?_, ?_, by decide⟩
  · rw [uploadKeySvc, hjs, sanitize_eq_sanitizeSpec, uploadsFolder]
  · rw [uploadKeyMono, hjs, sanitize_eq_sanitizeSpec, uploadsFolder]
  · rw [uploadVideoToS3]
    rw [uploadKeySvc, hjs, sanitize_eq_sanitizeSpec, uploadsFolder]

/-- Closed instance of the key construction at time 1234 for the file
named my clip.mp4. -/
theorem upload_key_construction_witness :
    uploadKeySvc 1234 (some "my clip.mp4") = "uploads/1234-my_clip.mp4" := by
  have h := upload_key_construction 1234 "my clip.mp4" (by decide)
    "video/mp4" "ap-southeast-1" "bucket" (some "video/mp4") [] 0
  rw [h.1, h.2.2.2]
  decide

/-- Claim C5: a listing response with no Contents, and likewise one with
an empty Contents array, makes listRecentFiles return the empty list as a
normal result. -/
theorem listing_empty_result (n : Nat) :
    listRecentFiles none n = [] ∧ listRecentFiles (some []) n = [] := by
  constructor
  · rfl
  · simp [listRecentFiles, sortByLmDesc]

/-- Claim C2 counterexample: an object whose Key is the empty string and
whose size is positive is neither keyless nor zero-sized, yet the source
filter drops it, because the empty string is falsy in the JavaScript
callback o => o.Key && o.Size > 0; the pipeline worded as in the claim
would keep it. -/
theorem listing_filter_counterexample :
    listRecentFiles (some [⟨some "", 5, 10⟩]) 1 = [] ∧
    listRecentClaimed (some [⟨some "", 5, 10⟩]) 1 =
      [⟨"", 5, 10, ⟨"", 300⟩⟩] ∧
    ([] : List FileEntry) ≠ [⟨"", 5, 10, ⟨"", 300⟩⟩] := by
  refine ⟨?_, ?_, ?_⟩ <;> decide

/-- Claim C2, amended: entries whose key is missing or empty (both falsy)
or whose size is not greater than 0 are removed; the remainder is sorted
by last-modified time descending (stably) and the first n entries are
returned. Stated as: the result is exactly the truncation of the stable
descending sort of the filtered objects, that sort is a permutation of the
filtered objects and is pairwise descending, the result length is the
minimum of n and the number of kept objects, the result itself is pairwise
descending, every returned entry arises from a kept object and has
positive size, and on ten objects with distinct timestamps plus one
zero-size object the three most recent appear, in descending order. -/
theorem listing_pipeline (cs : List S3Object) (n : Nat) :
    listRecentFiles (some cs) n =
      ((sortByLmDesc (cs.filter keepsObject)).take n).map mkEntrySvc ∧
    List.Perm (sortByLmDesc (cs.filter keepsObject)) (cs.filter keepsObject) ∧
    (sortByLmDesc (cs.filter keepsObject)).Pairwise
      (fun x y => y.lastModified ≤ x.lastModified) ∧
    (listRecentFiles (some cs) n).length = min n (cs.filter keepsObject).length ∧
    (listRecentFiles (some cs) n).Pairwise
      (fun x y => y.lastModified ≤ x.lastModified) ∧
    (∀ e ∈ listRecentFiles (some cs) n,
      ∃ o ∈ cs, keepsObject o = true ∧ e = mkEntrySvc o ∧ 0 < e.size) ∧
    listRecentFiles (some
      [⟨some "k0", 1, 3⟩, ⟨some "k1", 1, 7⟩, ⟨some "k2", 1, 1⟩, ⟨some "k3", 1, 9⟩,
       ⟨some "k4", 1, 4⟩, ⟨some "k5", 1, 0⟩, ⟨some "k6", 1, 8⟩, ⟨some "k7", 1, 2⟩,
       ⟨some "k8", 1, 6⟩, ⟨some "k9", 1, 5⟩, ⟨some "z", 0, 100⟩]) 3 =
      [⟨"k3", 1, 9, ⟨"k3", 300⟩⟩, ⟨"k6", 1, 8, ⟨"k6", 300⟩⟩,
       ⟨"k1", 1, 7, ⟨"k1", 300⟩⟩] := by
  have hperm := sortByLmDesc_perm (cs.filter keepsObject)
  have hsort := sortByLmDesc_sorted (cs.filter keepsObject)
  have htake : ((sortByLmDesc (cs.filter keepsObject)).take n).Pairwise
      (fun x y => y.lastModified ≤ x.lastModified) :=
    hsort.sublist (List.take_sublist n _)
  refine ⟨rfl, hperm, hsort, ?_, ?_, ?_, by decide⟩
  · simp [listRecentFiles, hperm.length_eq]
  · show (((sortByLmDesc (cs.filter keepsObject)).take n).map mkEntrySvc).Pairwise _
    rw [List.pairwise_map]
    exact htake
  · intro e he
    simp only [listRecentFiles, List.mem_map] at he
    obtain ⟨o, ho, rfl⟩ := he
    have ho2 : o ∈ sortByLmDesc (cs.filter keepsObject) := List.take_subset _ _ ho
    have ho3 : o ∈ cs.filter keepsObject := hperm.mem_iff.mp ho2
    obtain ⟨hocs, hk⟩ := List.mem_filter.mp ho3
    refine ⟨o, hocs, hk, rfl, ?_⟩
    have hk2 : 0 < o.size := by
      unfold keepsObject at hk
      simp only [Bool.and_eq_true, decide_eq_true_eq] at hk
      exact hk.2
    simpa [mkEntrySvc] using hk2

/-- Closed instance of the listing pipeline on a singleton listing. -/
theorem listing_pipeline_witness :
    0 < (mkEntrySvc ⟨some "a", 2, 1⟩).size := by
  have h := listing_pipeline [⟨some "a", 2, 1⟩] 1
  obtain ⟨o, ho, hk, he, hpos⟩ :=
    h.2.2.2.2.2.1 (mkEntrySvc ⟨some "a", 2, 1⟩) (by decide)
  exact hpos

/-- Claim C3: whenever the X-Client-Source header is absent or differs
from the trusted literal, both upload handlers answer 400 and never start
the storage upload. -/
theorem upload_untrusted_rejected (region bucket : String) (now : Nat)
    (up : Except JsError Unit) (src : Option String) (file : Option UploadedFile)
    (h : src ≠ some trustedSource) :
    (uploadVideo region bucket now up src file).status = 400 ∧
    (uploadVideo region bucket now up src file).s3Invoked = false ∧
    (uploadMono region bucket now up src file).status = 400 ∧
    (uploadMono region bucket now up src file).s3Invoked = false := by
  unfold uploadVideo uploadMono
  rw [if_pos h, if_pos h]
  exact ⟨rfl, rfl, rfl, rfl⟩

/-- Closed instance of the untrusted-source rejection with the header
absent. -/
theorem upload_untrusted_rejected_witness :
    (uploadVideo "ap-southeast-1" "bucket" 0 (.ok ()) none none).status = 400 ∧
    (uploadVideo "ap-southeast-1" "bucket" 0 (.ok ()) none none).s3Invoked = false := by
  have h := upload_untrusted_rejected "ap-southeast-1" "bucket" 0 (.ok ())
    none none (by decide)
  exact ⟨h.1, h.2.1⟩

/-- Claim C4: with the trusted header and an attached file whose declared
MIME type does not start with video/, both upload handlers answer 400 and
never start the storage upload, whatever the byte content. -/
theorem upload_non_video_rejected (region bucket : String) (now : Nat)
    (up : Except JsError Unit) (oname : Option String) (buf : List Nat) (sz : Nat)
    (m : String) (h : strStartsWith m "video/" = false) :
    (uploadVideo region bucket now up (some trustedSource)
        (some ⟨oname, some m, buf, sz⟩)).status = 400 ∧
    (uploadVideo region bucket now up (some trustedSource)
        (some ⟨oname, some m, buf, sz⟩)).s3Invoked = false ∧
    (uploadMono region bucket now up (some trustedSource)
        (some ⟨oname, some m, buf, sz⟩)).status = 400 ∧
    (uploadMono region bucket now up (some trustedSource)
        (some ⟨oname, some m, buf, sz⟩)).s3Invoked = false := by
  unfold uploadVideo uploadMono
  simp [h]

/-- Closed instance of the non-video rejection for a PNG declared type. -/
theorem upload_non_video_rejected_witness :
    (uploadVideo "ap-southeast-1" "bucket" 7 (.ok ()) (some trustedSource)
        (some ⟨some "cat.png", some "image/png", [1, 2], 2⟩)).status = 400 ∧
    (uploadVideo "ap-southeast-1" "bucket" 7 (.ok ()) (some trustedSource)
        (some ⟨some "cat.png", some "image/png", [1, 2], 2⟩)).s3Invoked = false := by
  have h := upload_non_video_rejected "ap-southeast-1" "bucket" 7 (.ok ())
    (some "cat.png") [1, 2] 2 "image/png" (by decide)
  exact ⟨h.1, h.2.1⟩

/-- Claim C10: in the split variant, with the trusted header and a file
whose mimetype is absent, the startsWith access throws, the catch block
answers 500 with error Upload failed, and the storage upload is never
started. -/
theorem upload_missing_mimetype_500 (region bucket : String) (now : Nat)
    (up : Except JsError Unit) (oname : Option String) (buf : List Nat) (sz : Nat) :
    (uploadVideo region bucket now up (some trustedSource)
        (some ⟨oname, none, buf, sz⟩)).status = 500 ∧
    getField (uploadVideo region bucket now up (some trustedSource)
        (some ⟨oname, none, buf, sz⟩)).body "error" = some (.str "Upload failed") ∧
    (uploadVideo region bucket now up (some trustedSource)
        (some ⟨oname, none, buf, sz⟩)).s3Invoked = false := by
  exact ⟨rfl, rfl, rfl⟩

/-- Claim C6 counterexample: the legacy monolithic variant hands the
signer 60 * 5 = 300 seconds, not 60; evaluated on a one-object listing its
retained entry carries expiry 300. -/
theorem sign_expiry_counterexample :
    monoSignExpiry = 300 ∧ monoSignExpiry ≠ 60 ∧
    (monoRecentEntries [⟨some "k", 1, 0⟩]).map (fun e => e.url.expiresIn) = [300] := by
  exact ⟨rfl, by decide, by decide⟩

/-- Claim C6, amended: the expiry handed to the signer is 300 seconds in
the gateway service and also 300 seconds (written 60 * 5) in the legacy
monolithic variant; signed URLs are generated only for the final truncated
set of entries, whose keys are exactly those of the first limit sorted
kept objects, never for all listed objects. -/
theorem sign_expiry_truncated (cs : List S3Object) (n : Nat) :
    svcSignExpiry = 300 ∧ monoSignExpiry = 300 ∧
    (∀ e ∈ listRecentFiles (some cs) n, e.url.expiresIn = 300) ∧
    (∀ e ∈ monoRecentEntries cs, e.url.expiresIn = 300) ∧
    (listRecentFiles (some cs) n).map (fun e => e.url.key) =
      ((sortByLmDesc (cs.filter keepsObject)).take n).map (fun o => o.key.getD "") ∧
    (listRecentFiles (some cs) n).length ≤ n ∧
    (monoRecentEntries cs).length ≤ 5 := by
  refine ⟨rfl, rfl, ?_, ?_, ?_, ?_, ?_⟩
  · intro e he
    simp only [listRecentFiles, List.mem_map] at he
    obtain ⟨o, _, rfl⟩ := he
    rfl
  · intro e he
    simp only [monoRecentEntries, List.mem_map] at he
    obtain ⟨o, _, rfl⟩ := he
    rfl
  · simp [listRecentFiles, List.map_map]
    rfl
  · simp only [listRecentFiles, List.length_map]
    exact List.length_take_le n _
  · simp only [monoRecentEntries, List.length_map]
    exact List.length_take_le 5 _

/-- Closed instance of the signing expiry on a singleton listing. -/
theorem sign_expiry_truncated_witness :
    (mkEntrySvc ⟨some "k", 1, 0⟩).url.expiresIn = 300 := by
  have h := sign_expiry_truncated [⟨some "k", 1, 0⟩] 5
  exact h.2.2.1 (mkEntrySvc ⟨some "k", 1, 0⟩) (by decide)

/-- Claim C7: both diagnostics variants always record exactly the
HeadBucket step followed by the ListObjectsV2 step; the listing step is
attempted and reported even when the bucket check fails, its record does
not depend on the bucket-check outcome, the failed bucket check is
reported with ok false, the probe listing is bounded to five keys, and the
probe is a total function of the two call outcomes (no error escapes). -/
theorem probe_both_steps (region bucket : Option String) (e : JsError)
    (h1 h2 : Except JsError HeadOk) (lr : Except JsError ListOk) :
    (debugS3Connectivity region bucket h1 lr).steps.length = 2 ∧
    (debugS3Connectivity region bucket h1 lr).steps =
      [headStepSvc h1, listStepSvc lr] ∧
    (debugS3Connectivity region bucket h1 lr).steps.get? 1 =
      (debugS3Connectivity region bucket h2 lr).steps.get? 1 ∧
    (debugS3Connectivity region bucket (.error e) lr).steps.get? 1 =
      some (listStepSvc lr) ∧
    getField (headStepSvc (.error e)) "ok" = some (.bool false) ∧
    debugListMaxKeys = 5 ∧
    (debugMono region bucket h1 lr).steps = [headStepMono h1, listStepMono lr] ∧
    (debugMono region bucket (.error e) lr).steps.get? 1 = some (listStepMono lr) := by
  exact ⟨rfl, rfl, rfl, rfl, rfl, rfl, rfl, rfl⟩

/-- Claim C8 counterexample: in the split variant service, when the bucket
check fails the recorded step carries ok false, code and message, but no
httpStatus key at all, contradicting the claimed field set for failing
steps. -/
theorem step_fields_counterexample :
    (debugS3Connectivity (some "ap-southeast-1") (some "bucket")
        (.error ⟨"AccessDenied", "denied", some 403⟩)
        (.ok ⟨some 200, some []⟩)).steps.get? 0 =
      some (headStepSvc (.error ⟨"AccessDenied", "denied", some 403⟩)) ∧
    getField (headStepSvc (.error ⟨"AccessDenied", "denied", some 403⟩)) "ok" =
      some (.bool false) ∧
    hasField (headStepSvc (.error ⟨"AccessDenied", "denied", some 403⟩)) "code" = true ∧
    hasField (headStepSvc (.error ⟨"AccessDenied", "denied", some 403⟩)) "message" = true ∧
    hasField (headStepSvc (.error ⟨"AccessDenied", "denied", some 403⟩)) "httpStatus" =
      false := by
  exact ⟨rfl, rfl, rfl, rfl, rfl⟩

/-- Claim C8, amended: every failing step records ok false, code and
message; the monolithic variant additionally records httpStatus on
failures, while the split variant service omits the httpStatus key from
failure records; every succeeding bucket-check step records ok true and
httpStatus in both variants. -/
theorem step_record_fields (e : JsError) (h : HeadOk) :
    (getField (headStepSvc (.error e)) "ok" = some (.bool false) ∧
     hasField (headStepSvc (.error e)) "code" = true ∧
     hasField (headStepSvc (.error e)) "message" = true ∧
     hasField (headStepSvc (.error e)) "httpStatus" = false) ∧
    (getField (listStepSvc (.error e)) "ok" = some (.bool false) ∧
     hasField (listStepSvc (.error e)) "code" = true ∧
     hasField (listStepSvc (.error e)) "message" = true ∧
     hasField (listStepSvc (.error e)) "httpStatus" = false) ∧
    (getField (headStepMono (.error e)) "ok" = some (.bool false) ∧
     hasField (headStepMono (.error e)) "code" = true ∧
     hasField (headStepMono (.error e)) "message" = true ∧
     hasField (headStepMono (.error e)) "httpStatus" = true) ∧
    (getField (listStepMono (.error e)) "ok" = some (.bool false) ∧
     hasField (listStepMono (.error e)) "code" = true ∧
     hasField (listStepMono (.error e)) "message" = true ∧
     hasField (listStepMono (.error e)) "httpStatus" = true) ∧
    (getField (headStepSvc (.ok h)) "ok" = some (.bool true) ∧
     hasField (headStepSvc (.ok h)) "httpStatus" = true) ∧
    (getField (headStepMono (.ok h)) "ok" = some (.bool true) ∧
     hasField (headStepMono (.ok h)) "httpStatus" = true) := by
  exact ⟨⟨rfl, rfl, rfl, rfl⟩, ⟨rfl, rfl, rfl, rfl⟩, ⟨rfl, rfl, rfl, rfl⟩,
    ⟨rfl, rfl, rfl, rfl⟩, ⟨rfl, rfl⟩, ⟨rfl, rfl⟩⟩

/-- Claim C9 counterexample: in the split variant file controller an empty
listing is answered with count and files (no message, no bucket), and a
listing failure is answered 500 with error and details only (no code, no
bucket, no prefix key). -/
theorem files_response_counterexample :
    (getFiles (.ok none)).1 = 200 ∧
    hasField (getFiles (.ok none)).2 "message" = false ∧
    hasField (getFiles (.ok none)).2 "bucket" = false ∧
    hasField (getFiles (.ok none)).2 "count" = true ∧
    (getFiles (.error ⟨"NoSuchBucket", "boom", none⟩)).1 = 500 ∧
    hasField (getFiles (.error ⟨"NoSuchBucket", "boom", none⟩)).2 "code" = false ∧
    hasField (getFiles (.error ⟨"NoSuchBucket", "boom", none⟩)).2 "bucket" = false := by
  exact ⟨rfl, rfl, rfl, rfl, rfl, rfl, rfl⟩

/-- Claim C9, amended: the monolithic /files route behaves as the claim
states (empty listing answers message and bucket, non-empty answers with
count and files, a failure answers 500 with error, code, details, bucket
and prefix); the split variant controller instead answers every successful
listing, empty included, with count and files, and answers failures 500
with error and details only. -/
theorem files_response_shapes (bucket : String) (e : JsError)
    (o : S3Object) (rest : List S3Object) (contents : Option (List S3Object)) :
    (filesHandlerMono bucket (.ok none)).1 = 200 ∧
    (filesHandlerMono bucket (.ok none)).2 =
      [("message", .str "No files found in uploads/"), ("bucket", .str bucket)] ∧
    (filesHandlerMono bucket (.ok (some []))).2 =
      [("message", .str "No files found in uploads/"), ("bucket", .str bucket)] ∧
    (filesHandlerMono bucket (.ok (some (o :: rest)))).1 = 200 ∧
    hasField (filesHandlerMono bucket (.ok (some (o :: rest)))).2 "count" = true ∧
    hasField (filesHandlerMono bucket (.ok (some (o :: rest)))).2 "files" = true ∧
    (filesHandlerMono bucket (.error e)).1 = 500 ∧
    hasField (filesHandlerMono bucket (.error e)).2 "error" = true ∧
    hasField (filesHandlerMono bucket (.error e)).2 "code" = true ∧
    hasField (filesHandlerMono bucket (.error e)).2 "details" = true ∧
    hasField (filesHandlerMono bucket (.error e)).2 "bucket" = true ∧
    hasField (filesHandlerMono bucket (.error e)).2 "prefix" = true ∧
    (getFiles (.ok contents)).1 = 200 ∧
    hasField (getFiles (.ok contents)).2 "count" = true ∧
    hasField (getFiles (.ok contents)).2 "files" = true ∧
    hasField (getFiles (.ok contents)).2 "message" = false ∧
    (getFiles (.error e)).1 = 500 ∧
    (getFiles (.error e)).2 =
      [("error", .str "Failed to list files"), ("details", .str e.message)] := by
  exact ⟨rfl, rfl, rfl, rfl, rfl, rfl, rfl, rfl, rfl, rfl, rfl, rfl, rfl, rfl,
    rfl, rfl, rfl, rfl⟩

end Pod
